import Mathlib

/-!
Shallow embedding of the diet-coach LINE bot server (the full pipeline
variant of server.js: entitlement store over Redis, order-code
registration, intent-dependent generation profiles, webhook
acknowledgment contract).

External I/O (store reads/writes, media fetch, generation API, the
locale date formatter of the JS runtime) is modelled by an explicit
environment of oracle functions; each external call performed by the
handler is recorded as an Action so that theorems can speak about which
calls were made and which replies were sent.  A JS exception thrown by
an awaited call is modelled as Except.error; an uncaught exception in
an event handler surfaces as the Option PipelineError component of the
handler result.
-/

namespace DietBot

/-- Character-list test: does the first list occur as a leading segment
of the second list.  Used to embed JS substring matching. -/
def startsWithChars : List Char → List Char → Bool
  | [], _ => true
  | _ :: _, [] => false
  | c :: cs, d :: ds => c = d && startsWithChars cs ds

/-- Character-list test: does the first list occur contiguously anywhere
inside the second list. -/
def containsChars (needle : List Char) : List Char → Bool
  | [] => startsWithChars needle []
  | d :: ds => startsWithChars needle (d :: ds) || containsChars needle ds

/-- String containment test: `containsSubstring hay needle` holds when
`needle` occurs contiguously in `hay`.  Embeds the JS regex
alternation test `/k1|k2|.../.test(hay)` for literal keywords. -/
def containsSubstring (hay needle : String) : Bool :=
  containsChars needle.data hay.data

/-- Embeds `String.prototype.trim()`: removes leading and trailing
whitespace characters. -/
def jsTrim (s : String) : String :=
  ⟨((s.data.dropWhile Char.isWhitespace).reverse.dropWhile Char.isWhitespace).reverse⟩

/-- Embeds the test of the regex `^\d{9,10}$` from the order-code branch
of the webhook handler (`text.match(/^\d{9,10}$/)`): the whole string is
9 or 10 decimal digits. -/
def isOrderCode (s : String) : Bool :=
  (s.data.length = 9 || s.data.length = 10) && s.data.all Char.isDigit

/-- The fixed meal-keyword vocabulary of the meal-report test
`/ごはん|食べた|朝食|昼食|夕食|晩ごはん|メニュー|食事|ランチ|ディナー/i`. -/
def mealKeywords : List String :=
  ["ごはん", "食べた", "朝食", "昼食", "夕食", "晩ごはん", "メニュー", "食事", "ランチ", "ディナー"]

/-- Embeds the `isMeal` regex test of the webhook handler: the message
contains at least one meal keyword as a substring. -/
def isMeal (s : String) : Bool :=
  mealKeywords.any (fun k => containsSubstring s k)

/-- The subscription record stored under key `sub:<userId>`:
`{ orderNumber, expireAt }` with `expireAt` in epoch milliseconds. -/
structure EntitlementRecord where
  orderNumber : String
  expireAt : Nat
deriving DecidableEq, Repr

/-- The inbound message payload of a LINE event: `event.message`.
For a text message the `text` field may be absent (the code guards with
`event.message.text || ""`), hence `Option String`. -/
inductive Message where
  | text : Option String → Message
  | image : String → Message
  | other : Message
deriving DecidableEq, Repr

/-- One inbound webhook event: `{ type, source.userId, replyToken, message }`. -/
structure Event where
  etype : String
  userId : String
  replyToken : String
  message : Message
deriving DecidableEq, Repr

/-- Intent categories of the event-dispatch pipeline. -/
inductive Intent where
  | orderCode
  | mealReport
  | visionRequest
  | generalChat
deriving DecidableEq, Repr

/-- The intent classification implicit in the branch structure of the
webhook handler: image messages are vision requests; a trimmed text
matching `^\d{9,10}$` is an order code; a text containing a meal keyword
is a meal report; anything else is general chat. -/
def classifyIntent : Message → Intent
  | Message.image _ => Intent.visionRequest
  | Message.text t =>
    let s := jsTrim (t.getD "")
    if isOrderCode s then Intent.orderCode
    else if isMeal s then Intent.mealReport
    else Intent.generalChat
  | Message.other => Intent.generalChat

/-- A request to the generation API: model id, system prompt, user
content (for the vision profile, the base64 data URL of the image),
sampling temperature in tenths, and token budget.  Embeds the argument
object of `ai.chat.completions.create`. -/
structure GenRequest where
  model : String
  system : String
  user : String
  temperatureTenths : Nat
  maxTokens : Nat
deriving DecidableEq, Repr

/-- System prompt of the vision (bone-structure diagnosis) profile. -/
def visionSystemPrompt : String :=
  "あなたは日本語で答える骨格診断アシスタントです。"
    ++ "写真からストレート/ウェーブ/ナチュラルの傾向(%)を推定し、"
    ++ "特徴・似合うシルエット/素材・避けたい例を3〜6行で。"

/-- System prompt of the meal-report (nutritionist) profile. -/
def mealSystemPrompt : String :=
  "あなたは日本語の栄養士AIです。食事内容から、"
    ++ "①PFCや栄養バランスの所感 ②ざっくりカロリー ③次の食事への改善提案 ④励ましの一言 "
    ++ "を4〜6行で具体的に伝えてください。"

/-- System prompt of the general-chat profile. -/
def chatSystemPrompt : String :=
  "You are a supportive Japanese fitness & styling assistant."

/-- Generation profile of the vision path (temperature 0.2, 500 tokens). -/
def visionRequest (user : String) : GenRequest :=
  ⟨"meta-llama/Meta-Llama-3.2-90B-Vision-Instruct", visionSystemPrompt, user, 2, 500⟩

/-- Generation profile of the meal-report path (temperature 0.5, 600 tokens). -/
def mealRequest (user : String) : GenRequest :=
  ⟨"meta-llama/Meta-Llama-3.1-70B-Instruct", mealSystemPrompt, user, 5, 600⟩

/-- Generation profile of the general-chat path (temperature 0.4, 500 tokens). -/
def chatRequest (user : String) : GenRequest :=
  ⟨"meta-llama/Meta-Llama-3.1-8B-Instruct", chatSystemPrompt, user, 4, 500⟩

/-- One external side effect performed by the server. -/
inductive Action where
  | storeGet : String → Action
  | storeSet : String → EntitlementRecord → Nat → Action
  | fetchImage : String → Action
  | genCall : GenRequest → Action
  | reply : String → String → Action
deriving DecidableEq, Repr

/-- An uncaught JS exception inside one event handler, by origin. -/
inductive PipelineError where
  | storeReadFail
  | storeWriteFail
  | genFail
deriving DecidableEq, Repr

/-- Oracle environment: the current clock and the behaviour of every
external collaborator.  A JS promise rejection of a call is the
`Except.error ()` outcome of the corresponding oracle. -/
structure Env where
  now : Nat
  storeRead : String → Except Unit (Option EntitlementRecord)
  storeWrite : String → EntitlementRecord → Nat → Except Unit Unit
  fetchImage : String → Except Unit String
  gen : GenRequest → Except Unit (Option String)
  formatDate : Nat → String

/-- Embeds `data?.expireAt ?? 0; return expireAt > Date.now()` applied
to the parsed store value (absent record gives false). -/
def isActiveData (now : Nat) : Option EntitlementRecord → Bool
  | none => false
  | some r => decide (now < r.expireAt)

/-- Embeds `async function isActive(userId)`: reads `sub:<userId>` from
the store and compares the expiry with the current time.  A rejected
store read propagates (there is no catch inside the function). -/
def isActive (env : Env) (userId : String) : Except Unit Bool :=
  match env.storeRead ("sub:" ++ userId) with
  | Except.error e => Except.error e
  | Except.ok d => Except.ok (isActiveData env.now d)

/-- Embeds `result?.choices?.[0]?.message?.content?.trim() || fallback`:
an absent completion or a completion that trims to the empty string is
replaced by the fixed fallback text. -/
def extractReply (content : Option String) (fallback : String) : String :=
  match content with
  | none => fallback
  | some s => if jsTrim s = "" then fallback else jsTrim s

/-- An absent or whitespace-only completion (the condition under which
`extractReply` substitutes the fallback). -/
def emptyCompletion : Option String → Bool
  | none => true
  | some s => jsTrim s = ""

/-- Fixed gate-rejection reply for expired/unregistered principals. -/
def expiredText : String :=
  "🕒 ご利用期限が切れています。\nSTORESでご購入のうえ、9〜10桁の注文番号を送ってください。"

/-- Fallback reply of the vision path for an empty completion. -/
def visionFallback : String :=
  "画像を解析できませんでした。もう一度明るい場所で撮影して送ってください📸"

/-- Apology reply of the vision catch branch (media fetch or generation
call threw). -/
def visionErrText : String :=
  "画像の取得/解析でエラーが起きました。もう一度お願いします🙏"

/-- Fallback reply of the meal-report path for an empty completion. -/
def mealFallback : String :=
  "食事内容をうまく解析できませんでした。もう一度お送りください🍎"

/-- Fallback reply of the general-chat path for an empty completion. -/
def chatFallback : String :=
  "うまく生成できませんでした。もう一度お願いします。"

/-- Confirmation reply of the order-code registration branch; the
expiry date is rendered by the platform locale formatter
(`new Date(expireAt).toLocaleDateString("ja-JP")`, modelled by
`env.formatDate`). -/
def orderConfirmText (env : Env) (orderNumber : String) (expireAt : Nat) : String :=
  "🔑 注文番号 " ++ orderNumber ++ " を登録しました。\nご利用期限: " ++ env.formatDate expireAt

/-- Embeds the per-event callback of `events.map(async (event) => ...)`
inside `app.post("/webhook/line")`.  Returns, in call order, the list of
external actions the handler performed, and `some err` when an uncaught
exception terminated the handler early (a rejected store read/write or a
rejected generation call on a text path).  Control flow mirrors the
source: non-message events are ignored; a 9-10 digit trimmed text is
registered immediately (before any entitlement read); every other
message is gated by `isActive`; image messages run fetch+generation
inside a try/catch whose catch replies with a fixed apology; text
messages run the meal or chat profile with no catch. -/
def handleEvent (env : Env) (ev : Event) : List Action × Option PipelineError :=
  if ev.etype = "message" then
    let key := "sub:" ++ ev.userId
    match ev.message with
    | Message.text mtext =>
      let text := jsTrim (mtext.getD "")
      if isOrderCode text then
        let expireAt := env.now + 30 * 86400 * 1000
        let rec0 : EntitlementRecord := ⟨text, expireAt⟩
        match env.storeWrite key rec0 (30 * 86400) with
        | Except.error _ => ([Action.storeSet key rec0 (30 * 86400)], some PipelineError.storeWriteFail)
        | Except.ok _ =>
          ([Action.storeSet key rec0 (30 * 86400),
            Action.reply ev.replyToken (orderConfirmText env text expireAt)], none)
      else
        match isActive env ev.userId with
        | Except.error _ => ([Action.storeGet key], some PipelineError.storeReadFail)
        | Except.ok false =>
          ([Action.storeGet key, Action.reply ev.replyToken expiredText], none)
        | Except.ok true =>
          if isMeal text then
            let req := mealRequest text
            match env.gen req with
            | Except.error _ =>
              ([Action.storeGet key, Action.genCall req], some PipelineError.genFail)
            | Except.ok c =>
              ([Action.storeGet key, Action.genCall req,
                Action.reply ev.replyToken (extractReply c mealFallback)], none)
          else
            let req := chatRequest text
            match env.gen req with
            | Except.error _ =>
              ([Action.storeGet key, Action.genCall req], some PipelineError.genFail)
            | Except.ok c =>
              ([Action.storeGet key, Action.genCall req,
                Action.reply ev.replyToken (extractReply c chatFallback)], none)
    | Message.image mid =>
      match isActive env ev.userId with
      | Except.error _ => ([Action.storeGet key], some PipelineError.storeReadFail)
      | Except.ok false =>
        ([Action.storeGet key, Action.reply ev.replyToken expiredText], none)
      | Except.ok true =>
        match env.fetchImage mid with
        | Except.error _ =>
          ([Action.storeGet key, Action.fetchImage mid,
            Action.reply ev.replyToken visionErrText], none)
        | Except.ok buf =>
          let req := visionRequest ("data:image/jpeg;base64," ++ buf)
          match env.gen req with
          | Except.error _ =>
            ([Action.storeGet key, Action.fetchImage mid, Action.genCall req,
              Action.reply ev.replyToken visionErrText], none)
          | Except.ok c =>
            ([Action.storeGet key, Action.fetchImage mid, Action.genCall req,
              Action.reply ev.replyToken (extractReply c visionFallback)], none)
    | Message.other =>
      match isActive env ev.userId with
      | Except.error _ => ([Action.storeGet key], some PipelineError.storeReadFail)
      | Except.ok false =>
        ([Action.storeGet key, Action.reply ev.replyToken expiredText], none)
      | Except.ok true => ([Action.storeGet key], none)
  else ([], none)

/-- Results of all event handlers of one delivery: the handlers are
started independently by `events.map` and each runs to completion
regardless of the others (`Promise.all` joins them but does not cancel
a sibling when one rejects). -/
def batchResults (env : Env) (events : List Event) : List (List Action × Option PipelineError) :=
  events.map (handleEvent env)

/-- All external actions performed while a delivery batch settles. -/
def allActions : List (List Action × Option PipelineError) → List Action
  | [] => []
  | r :: rs => r.1 ++ allActions rs

/-- Whether at least one event handler rejected, i.e. whether
`Promise.all` rejects and control reaches the catch block. -/
def batchFailed (rs : List (List Action × Option PipelineError)) : Bool :=
  rs.any (fun r => r.2.isSome)

/-- Embeds `app.post("/webhook/line", ...)`: reads `req.body?.events || []`,
fans the events out, and answers the platform.  Both the normal path and
the catch block execute `res.status(200).end()`. -/
def handleWebhook (env : Env) (body : Option (List Event)) : Nat × List Action :=
  let events := body.getD []
  let rs := batchResults env events
  if batchFailed rs then (200, allActions rs) else (200, allActions rs)

/-- The request body of `app.post("/register")`:
`{ userId, orderNumber, days = 30 }` with every field optional. -/
structure RegisterBody where
  userId : Option String
  orderNumber : Option String
  days : Option Nat
deriving DecidableEq, Repr

/-- Embeds `app.post("/register")`: destructures `req.body || {}` with
`days` defaulting to 30, answers 400 when `userId` or `orderNumber` is
missing or empty (JS falsiness), otherwise writes the record with
expiry `now + days*86400*1000` and TTL `days*86400` seconds, answering
500 when the store write rejects (the catch block) and 200 otherwise. -/
def handleRegister (env : Env) (body : Option RegisterBody) : Nat × List Action :=
  let b := body.getD ⟨none, none, none⟩
  let days := b.days.getD 30
  match b.userId, b.orderNumber with
  | some u, some o =>
    if u = "" || o = "" then (400, [])
    else
      let expireAt := env.now + days * 86400 * 1000
      let key := "sub:" ++ u
      let rec0 : EntitlementRecord := ⟨o, expireAt⟩
      match env.storeWrite key rec0 (days * 86400) with
      | Except.error _ => (500, [Action.storeSet key rec0 (days * 86400)])
      | Except.ok _ => (200, [Action.storeSet key rec0 (days * 86400)])
  | _, _ => (400, [])

/-- Does an action list contain a reply action. -/
def hasReply (as : List Action) : Bool :=
  as.any (fun a => match a with | Action.reply _ _ => true | _ => false)

/-- Does an action list contain a generation-API call. -/
def hasGenCall (as : List Action) : Bool :=
  as.any (fun a => match a with | Action.genCall _ => true | _ => false)

/-- Does an action list contain an entitlement-store read. -/
def hasStoreGet (as : List Action) : Bool :=
  as.any (fun a => match a with | Action.storeGet _ => true | _ => false)

/-- Does an action list contain an entitlement-store write. -/
def hasStoreSet (as : List Action) : Bool :=
  as.any (fun a => match a with | Action.storeSet _ _ _ => true | _ => false)

/-- A store record that is still valid at the fixture clock 1000000. -/
def activeRecord : EntitlementRecord := ⟨"987654321", 2000000⟩

/-- Fixture environment: entitled principal, reliable store, generation
returns a non-empty completion. -/
def baseEnv : Env :=
  ⟨1000000,
   fun _ => Except.ok (some activeRecord),
   fun _ _ _ => Except.ok (),
   fun _ => Except.ok "IMGDATA",
   fun _ => Except.ok (some "生成結果です。"),
   fun n => toString n⟩

/-- Fixture environment: entitled principal but every generation call
rejects (transport failure). -/
def genFailEnv : Env :=
  ⟨1000000,
   fun _ => Except.ok (some activeRecord),
   fun _ _ _ => Except.ok (),
   fun _ => Except.ok "IMGDATA",
   fun _ => Except.error (),
   fun n => toString n⟩

/-- Fixture environment: entitled principal, generation returns an
empty completion. -/
def genEmptyEnv : Env :=
  ⟨1000000,
   fun _ => Except.ok (some activeRecord),
   fun _ _ _ => Except.ok (),
   fun _ => Except.ok "IMGDATA",
   fun _ => Except.ok none,
   fun n => toString n⟩

/-- Fixture environment: every store read rejects. -/
def readFailEnv : Env :=
  ⟨1000000,
   fun _ => Except.error (),
   fun _ _ _ => Except.ok (),
   fun _ => Except.ok "IMGDATA",
   fun _ => Except.ok (some "生成結果です。"),
   fun n => toString n⟩

/-- Fixture environment: store holds no record for anyone. -/
def emptyStoreEnv : Env :=
  ⟨1000000,
   fun _ => Except.ok none,
   fun _ _ _ => Except.ok (),
   fun _ => Except.ok "IMGDATA",
   fun _ => Except.ok (some "生成結果です。"),
   fun n => toString n⟩

/-- Fixture environment: store holds only an expired record. -/
def expiredStoreEnv : Env :=
  ⟨1000000,
   fun _ => Except.ok (some ⟨"111111111", 500⟩),
   fun _ _ _ => Except.ok (),
   fun _ => Except.ok "IMGDATA",
   fun _ => Except.ok (some "生成結果です。"),
   fun n => toString n⟩

/-- Fixture environment: the generation call rejects exactly when the
user content is the literal "FAIL", and answers otherwise. -/
def selectiveGenEnv : Env :=
  ⟨1000000,
   fun _ => Except.ok (some activeRecord),
   fun _ _ _ => Except.ok (),
   fun _ => Except.ok "IMGDATA",
   fun req => if req.user = "FAIL" then Except.error () else Except.ok (some "OK返信"),
   fun n => toString n⟩

/-- Fixture event: a meal-report shaped text message. -/
def evMeal : Event := ⟨"message", "U5", "tok5", Message.text (some "昼食はラーメン")⟩

/-- Fixture event: a 10-digit order code. -/
def evOrder : Event := ⟨"message", "U9", "tok9", Message.text (some "1234567890")⟩

/-- Fixture event: a general-chat text message. -/
def evChat : Event := ⟨"message", "U1", "tokC4", Message.text (some "こんにちは")⟩

/-- Fixture event: a whitespace-only text message. -/
def evBlank : Event := ⟨"message", "U7", "tok7", Message.text (some "   ")⟩

/-- Fixture batch events: two ordinary chats around one whose generation
call rejects under `selectiveGenEnv`. -/
def evBatch1 : Event := ⟨"message", "U1", "tok1", Message.text (some "こんにちは")⟩

/-- Second fixture batch event (its generation call rejects). -/
def evBatch2 : Event := ⟨"message", "U2", "tok2", Message.text (some "FAIL")⟩

/-- Third fixture batch event. -/
def evBatch3 : Event := ⟨"message", "U3", "tok3", Message.text (some "おはよう")⟩

/-! Helper lemmas shared by the claim theorems. -/

theorem startsWithChars_append_self (n s : List Char) :
    startsWithChars n (n ++ s) = true := by
  induction n with
  | nil => rfl
  | cons c cs ih => simp [startsWithChars, ih]

theorem containsChars_of_startsWithChars {n hay : List Char}
    (h : startsWithChars n hay = true) : containsChars n hay = true := by
  cases hay with
  | nil => simpa [containsChars] using h
  | cons d ds => simp [containsChars, h]

theorem containsChars_cons {n hay : List Char} (c : Char)
    (h : containsChars n hay = true) : containsChars n (c :: hay) = true := by
  simp [containsChars, h]

theorem containsChars_append_self (p n s : List Char) :
    containsChars n (p ++ n ++ s) = true := by
  induction p with
  | nil => exact containsChars_of_startsWithChars (startsWithChars_append_self n s)
  | cons c cs ih => exact containsChars_cons c ih

theorem isOrderCode_iff (s : String) :
    isOrderCode s = true ↔
      (s.data.length = 9 ∨ s.data.length = 10) ∧ ∀ c ∈ s.data, c.isDigit = true := by
  unfold isOrderCode
  simp [Bool.and_eq_true, Bool.or_eq_true, List.all_eq_true, decide_eq_true_iff]

theorem classify_text_orderCode (t : Option String) :
    classifyIntent (Message.text t) = Intent.orderCode ↔
      isOrderCode (jsTrim (t.getD "")) = true := by
  unfold classifyIntent
  by_cases h : isOrderCode (jsTrim (t.getD "")) = true
  · simp [h]
  · simp only [Bool.not_eq_true] at h
    simp only [h, if_false]
    constructor
    · intro hc
      by_cases hm : isMeal (jsTrim (t.getD "")) = true <;> simp [hm] at hc
    · intro hc
      exact absurd hc (by simp [h])

theorem extractReply_empty {c : Option String} {fb : String}
    (h : emptyCompletion c = true) : extractReply c fb = fb := by
  cases c with
  | none => rfl
  | some s =>
    unfold emptyCompletion at h
    unfold extractReply
    simp only [decide_eq_true_iff] at h
    simp [h]

theorem mem_allActions {rs : List (List Action × Option PipelineError)}
    {r : List Action × Option PipelineError} (hr : r ∈ rs)
    {a : Action} (ha : a ∈ r.1) : a ∈ allActions rs := by
  induction rs with
  | nil => cases hr
  | cons x xs ih =>
    cases hr with
    | head => exact List.mem_append_left _ ha
    | tail _ h => exact List.mem_append_right _ (ih h)

theorem handleWebhook_actions (env : Env) (events : List Event) :
    (handleWebhook env (some events)).2 = allActions (batchResults env events) := by
  unfold handleWebhook
  simp only [ite_self]
  rfl

/-! Claim theorems. -/

/-- C1: every POST delivery to the webhook endpoint is acknowledged
with HTTP 200, for every oracle behaviour of the store, the media
fetch and the generation client — in particular when an event handler
or the batch raises — so the handler never returns a non-success
status to the platform transport. -/
theorem webhook_always_acks_200 (env : Env) (body : Option (List Event)) :
    (handleWebhook env body).1 = 200 := by
  unfold handleWebhook
  simp only [ite_self]

/-- C2: a text event is classified order-code exactly when its trimmed
message is a full-string numeric code of 9 or 10 digits; in particular
"123456789" is order-code and "12345" falls through to general chat. -/
theorem orderCode_classification_rule :
    (∀ t : Option String,
        classifyIntent (Message.text t) = Intent.orderCode ↔
          ((jsTrim (t.getD "")).data.length = 9 ∨ (jsTrim (t.getD "")).data.length = 10)
            ∧ ∀ c ∈ (jsTrim (t.getD "")).data, c.isDigit = true)
    ∧ classifyIntent (Message.text (some "123456789")) = Intent.orderCode
    ∧ classifyIntent (Message.text (some "12345")) = Intent.generalChat := by
  refine ⟨fun t => ?_, by decide, by decide⟩
  exact (classify_text_orderCode t).trans (isOrderCode_iff _)

/-- C2 witness: the classification rule evaluated at a concrete
10-digit input. -/
theorem orderCode_classification_rule_witness :
    classifyIntent (Message.text (some "1234567890")) = Intent.orderCode :=
  (orderCode_classification_rule.1 (some "1234567890")).mpr (by decide)

/-- C6: isActive returns ok true exactly when the store holds a record
whose expiry is strictly after the current time; a successful read of
an absent record, or of a record whose expiry has passed, returns
ok false. -/
theorem isActive_entitlement_spec (env : Env) (uid : String) :
    (isActive env uid = Except.ok true ↔
       ∃ r, env.storeRead ("sub:" ++ uid) = Except.ok (some r) ∧ env.now < r.expireAt)
    ∧ (env.storeRead ("sub:" ++ uid) = Except.ok none → isActive env uid = Except.ok false)
    ∧ (∀ r, env.storeRead ("sub:" ++ uid) = Except.ok (some r) → r.expireAt ≤ env.now →
        isActive env uid = Except.ok false) := by
  refine ⟨?_, ?_, ?_⟩
  · unfold isActive
    cases h : env.storeRead ("sub:" ++ uid) with
    | error e => simp [h]
    | ok d =>
      cases d with
      | none => simp [h, isActiveData]
      | some r => simp [h, isActiveData]
  · intro h
    unfold isActive
    simp [h, isActiveData]
  · intro r h hle
    unfold isActive
    simp [h, isActiveData, Nat.not_lt.mpr hle]

/-- C6 witness: absent record, expired record, and valid record
evaluated on concrete fixtures. -/
theorem isActive_entitlement_spec_witness :
    isActive emptyStoreEnv "U1" = Except.ok false
    ∧ isActive expiredStoreEnv "U1" = Except.ok false
    ∧ isActive baseEnv "U1" = Except.ok true :=
  ⟨(isActive_entitlement_spec emptyStoreEnv "U1").2.1 rfl,
   (isActive_entitlement_spec expiredStoreEnv "U1").2.2 ⟨"111111111", 500⟩ rfl (by decide),
   (isActive_entitlement_spec baseEnv "U1").1.mpr ⟨activeRecord, rfl, by decide⟩⟩

/-- C3: for every message event whose intent is not order-code and whose
principal the entitlement check reports as not entitled, the handler
performs exactly the store read and the fixed gate-rejection reply —
in particular no generation call is made for that event. -/
theorem unentitled_gate_rejection (env : Env) (ev : Event)
    (h1 : ev.etype = "message")
    (h2 : classifyIntent ev.message ≠ Intent.orderCode)
    (h3 : isActive env ev.userId = Except.ok false) :
    handleEvent env ev =
      ([Action.storeGet ("sub:" ++ ev.userId), Action.reply ev.replyToken expiredText], none)
    ∧ hasGenCall (handleEvent env ev).1 = false := by
  have hmain : handleEvent env ev =
      ([Action.storeGet ("sub:" ++ ev.userId), Action.reply ev.replyToken expiredText], none) := by
    unfold handleEvent
    rw [h1]
    cases hm : ev.message with
    | text t =>
      rw [hm] at h2
      cases hob : isOrderCode (jsTrim (t.getD "")) with
      | true => exact absurd ((classify_text_orderCode t).mpr hob) h2
      | false => simp [hob, h3]
    | image mid => simp [h3]
    | other => simp [h3]
  refine ⟨hmain, ?_⟩
  rw [hmain]
  rfl

/-- C3 witness: an unentitled principal sending a meal-report text gets
the gate rejection and triggers no generation call. -/
theorem unentitled_gate_rejection_witness :
    handleEvent emptyStoreEnv evMeal =
      ([Action.storeGet ("sub:" ++ evMeal.userId), Action.reply evMeal.replyToken expiredText], none)
    ∧ hasGenCall (handleEvent emptyStoreEnv evMeal).1 = false :=
  unentitled_gate_rejection emptyStoreEnv evMeal rfl (by decide) rfl

/-- C5: every event of a batch has its own handler result in the batch
results, and every external action it performs — its reply included —
is performed by the webhook handler, whatever happens to the sibling
events (the environment is universally quantified, so sibling handlers
may reject). -/
theorem batch_failure_isolation (env : Env) (events : List Event) (ev : Event)
    (hev : ev ∈ events) :
    handleEvent env ev ∈ batchResults env events
    ∧ ∀ a ∈ (handleEvent env ev).1, a ∈ (handleWebhook env (some events)).2 := by
  refine ⟨List.mem_map_of_mem _ hev, fun a ha => ?_⟩
  rw [handleWebhook_actions]
  exact mem_allActions (List.mem_map_of_mem _ hev) ha

/-- C5 witness: in a 3-event batch whose middle event has a rejecting
generation call, the two sibling events still get their replies. -/
theorem batch_failure_isolation_witness :
    (Action.reply "tok1" "OK返信" ∈
        (handleWebhook selectiveGenEnv (some [evBatch1, evBatch2, evBatch3])).2)
    ∧ (Action.reply "tok3" "OK返信" ∈
        (handleWebhook selectiveGenEnv (some [evBatch1, evBatch2, evBatch3])).2)
    ∧ (handleEvent selectiveGenEnv evBatch2).2 = some PipelineError.genFail :=
  ⟨(batch_failure_isolation selectiveGenEnv [evBatch1, evBatch2, evBatch3] evBatch1
      (by decide)).2 (Action.reply "tok1" "OK返信") (by decide),
   (batch_failure_isolation selectiveGenEnv [evBatch1, evBatch2, evBatch3] evBatch3
      (by decide)).2 (Action.reply "tok3" "OK返信") (by decide),
   by decide⟩

/-- Shared reduction of the order-code branch of `handleEvent`: for a
message event whose trimmed text is an order code, the handler writes
the 30-day record and, when the write succeeds, sends the confirmation
reply. -/
theorem handleEvent_orderCode (env : Env) (ev : Event) (t : Option String)
    (h1 : ev.etype = "message") (h2 : ev.message = Message.text t)
    (hob : isOrderCode (jsTrim (t.getD "")) = true) :
    handleEvent env ev =
      (match env.storeWrite ("sub:" ++ ev.userId)
          ⟨jsTrim (t.getD ""), env.now + 30 * 86400 * 1000⟩ (30 * 86400) with
      | Except.error _ =>
        ([Action.storeSet ("sub:" ++ ev.userId)
            ⟨jsTrim (t.getD ""), env.now + 30 * 86400 * 1000⟩ (30 * 86400)],
          some PipelineError.storeWriteFail)
      | Except.ok _ =>
        ([Action.storeSet ("sub:" ++ ev.userId)
            ⟨jsTrim (t.getD ""), env.now + 30 * 86400 * 1000⟩ (30 * 86400),
          Action.reply ev.replyToken
            (orderConfirmText env (jsTrim (t.getD "")) (env.now + 30 * 86400 * 1000))],
          none)) := by
  cases hw : env.storeWrite ("sub:" ++ ev.userId)
      ⟨jsTrim (t.getD ""), env.now + 30 * 86400 * 1000⟩ (30 * 86400) with
  | error e => unfold handleEvent; rw [h1, h2]; simp [hob, hw]
  | ok u => unfold handleEvent; rw [h1, h2]; simp [hob, hw]

/-- Substring containment survives concatenation around the needle. -/
theorem containsSubstring_append_middle (pre mid suf : String) :
    containsSubstring (pre ++ mid ++ suf) mid = true := by
  unfold containsSubstring
  rw [String.data_append, String.data_append]
  exact containsChars_append_self pre.data mid.data suf.data

/-- The order-code confirmation reply contains the accepted code. -/
theorem orderConfirmText_contains (env : Env) (code : String) (e : Nat) :
    containsSubstring (orderConfirmText env code e) code = true := by
  unfold orderConfirmText
  rw [String.append_assoc]
  exact containsSubstring_append_middle _ _ _

/-- C8: a text event classified order-code bypasses the entitlement
gate entirely — no store read is performed — and, when the store write
succeeds, the handler registers the 30-day record and replies with a
confirmation containing the accepted code and the formatted expiry,
with no generation call; the environment (hence the entitlement state
of the sender) is arbitrary. -/
theorem orderCode_bypasses_gate (env : Env) (ev : Event) (t : Option String)
    (h1 : ev.etype = "message")
    (h2 : ev.message = Message.text t)
    (h3 : classifyIntent ev.message = Intent.orderCode)
    (h4 : env.storeWrite ("sub:" ++ ev.userId)
            ⟨jsTrim (t.getD ""), env.now + 30 * 86400 * 1000⟩ (30 * 86400) = Except.ok ()) :
    handleEvent env ev =
      ([Action.storeSet ("sub:" ++ ev.userId)
          ⟨jsTrim (t.getD ""), env.now + 30 * 86400 * 1000⟩ (30 * 86400),
        Action.reply ev.replyToken
          (orderConfirmText env (jsTrim (t.getD "")) (env.now + 30 * 86400 * 1000))], none)
    ∧ hasStoreGet (handleEvent env ev).1 = false
    ∧ hasGenCall (handleEvent env ev).1 = false
    ∧ containsSubstring
        (orderConfirmText env (jsTrim (t.getD "")) (env.now + 30 * 86400 * 1000))
        (jsTrim (t.getD "")) = true := by
  rw [h2] at h3
  have hob : isOrderCode (jsTrim (t.getD "")) = true := (classify_text_orderCode t).mp h3
  have hmain : handleEvent env ev =
      ([Action.storeSet ("sub:" ++ ev.userId)
          ⟨jsTrim (t.getD ""), env.now + 30 * 86400 * 1000⟩ (30 * 86400),
        Action.reply ev.replyToken
          (orderConfirmText env (jsTrim (t.getD "")) (env.now + 30 * 86400 * 1000))], none) := by
    rw [handleEvent_orderCode env ev t h1 h2 hob, h4]
  exact ⟨hmain, by rw [hmain]; rfl, by rw [hmain]; rfl, orderConfirmText_contains env _ _⟩

/-- C8 witness: an unentitled sender (empty store) sending a 10-digit
code gets registered and confirmed, with no store read and no
generation call. -/
theorem orderCode_bypasses_gate_witness :
    handleEvent emptyStoreEnv evOrder =
      ([Action.storeSet ("sub:" ++ evOrder.userId)
          ⟨jsTrim ((some "1234567890").getD ""), emptyStoreEnv.now + 30 * 86400 * 1000⟩
          (30 * 86400),
        Action.reply evOrder.replyToken
          (orderConfirmText emptyStoreEnv (jsTrim ((some "1234567890").getD ""))
            (emptyStoreEnv.now + 30 * 86400 * 1000))], none)
    ∧ hasStoreGet (handleEvent emptyStoreEnv evOrder).1 = false
    ∧ hasGenCall (handleEvent emptyStoreEnv evOrder).1 = false
    ∧ containsSubstring
        (orderConfirmText emptyStoreEnv (jsTrim ((some "1234567890").getD ""))
          (emptyStoreEnv.now + 30 * 86400 * 1000))
        (jsTrim ((some "1234567890").getD "")) = true :=
  orderCode_bypasses_gate emptyStoreEnv evOrder (some "1234567890") rfl rfl (by decide) rfl

/-- C9: a whitespace-only text from an entitled principal is neither
rejected nor dropped: it classifies as general chat, the handler makes
a generation call whose user message is the empty string, and no
registration write happens. -/
theorem blank_text_general_chat (env : Env) (ev : Event) (t : Option String)
    (h1 : ev.etype = "message")
    (h2 : ev.message = Message.text t)
    (h3 : jsTrim (t.getD "") = "")
    (h4 : isActive env ev.userId = Except.ok true) :
    classifyIntent ev.message = Intent.generalChat
    ∧ Action.genCall (chatRequest "") ∈ (handleEvent env ev).1
    ∧ hasStoreSet (handleEvent env ev).1 = false := by
  have hob : isOrderCode (jsTrim (t.getD "")) = false := by rw [h3]; decide
  have hml : isMeal (jsTrim (t.getD "")) = false := by rw [h3]; decide
  have hcl : classifyIntent ev.message = Intent.generalChat := by
    rw [h2]
    simp [classifyIntent, hob, hml]
  refine ⟨hcl, ?_, ?_⟩ <;>
  · cases hg : env.gen (chatRequest "") with
    | error e =>
      have hmain : handleEvent env ev =
          ([Action.storeGet ("sub:" ++ ev.userId), Action.genCall (chatRequest "")],
            some PipelineError.genFail) := by
        unfold handleEvent
        rw [h1, h2]
        simp [h3, h4, hg, (by decide : isOrderCode "" = false),
          (by decide : isMeal "" = false)]
      rw [hmain]
      simp [hasStoreSet]
    | ok c =>
      have hmain : handleEvent env ev =
          ([Action.storeGet ("sub:" ++ ev.userId), Action.genCall (chatRequest ""),
            Action.reply ev.replyToken (extractReply c chatFallback)], none) := by
        unfold handleEvent
        rw [h1, h2]
        simp [h3, h4, hg, (by decide : isOrderCode "" = false),
          (by decide : isMeal "" = false)]
      rw [hmain]
      simp [hasStoreSet]

/-- C9 witness: the message of three spaces from an entitled principal
produces a generation call with the empty user message. -/
theorem blank_text_general_chat_witness :
    classifyIntent evBlank.message = Intent.generalChat
    ∧ Action.genCall (chatRequest "") ∈ (handleEvent baseEnv evBlank).1
    ∧ hasStoreSet (handleEvent baseEnv evBlank).1 = false :=
  blank_text_general_chat baseEnv evBlank (some "   ") rfl rfl (by decide) rfl

/-- C10: registration through a chat order-code always uses the fixed
30-day window (record expiry now + 30*86400000 ms, store TTL 30*86400
seconds) — there is no configurable window on that path — while the
administrative /register endpoint honors a caller-supplied days value
and defaults it to 30 when absent. -/
theorem fixed_window_registration (env : Env) :
    (∀ ev t, ev.etype = "message" → ev.message = Message.text t →
       isOrderCode (jsTrim (t.getD "")) = true →
       ∀ a ∈ (handleEvent env ev).1, ∀ key r ttl, a = Action.storeSet key r ttl →
         r.expireAt = env.now + 30 * 86400000 ∧ ttl = 30 * 86400)
    ∧ (∀ u o d, u ≠ "" → o ≠ "" →
        (handleRegister env (some ⟨some u, some o, some d⟩)).2 =
          [Action.storeSet ("sub:" ++ u) ⟨o, env.now + d * 86400 * 1000⟩ (d * 86400)])
    ∧ (∀ u o, u ≠ "" → o ≠ "" →
        (handleRegister env (some ⟨some u, some o, none⟩)).2 =
          [Action.storeSet ("sub:" ++ u) ⟨o, env.now + 30 * 86400 * 1000⟩ (30 * 86400)]) := by
  refine ⟨?_, ?_, ?_⟩
  · intro ev t h1 h2 hob a ha key r ttl heq
    rw [handleEvent_orderCode env ev t h1 h2 hob] at ha
    subst heq
    cases hw : env.storeWrite ("sub:" ++ ev.userId)
        ⟨jsTrim (t.getD ""), env.now + 30 * 86400 * 1000⟩ (30 * 86400) with
    | error e =>
      rw [hw] at ha
      simp only [List.mem_singleton, Action.storeSet.injEq] at ha
      obtain ⟨-, hr, httl⟩ := ha
      refine ⟨?_, by omega⟩
      rw [hr]
    | ok u =>
      rw [hw] at ha
      simp only [List.mem_cons, List.mem_singleton, Action.storeSet.injEq] at ha
      rcases ha with ⟨-, hr, httl⟩ | ha
      · refine ⟨?_, by omega⟩
        rw [hr]
      · simp at ha
  · intro u o d hu ho
    have hcond : (u = "" || o = "") = false := by simp [hu, ho]
    unfold handleRegister
    simp only [Option.getD_some, Option.getD_none]
    rw [hcond]
    simp only [Bool.false_eq_true, if_false]
    cases hw : env.storeWrite ("sub:" ++ u) ⟨o, env.now + d * 86400 * 1000⟩ (d * 86400) with
    | error e => rfl
    | ok x => rfl
  · intro u o hu ho
    have hcond : (u = "" || o = "") = false := by simp [hu, ho]
    unfold handleRegister
    simp only [Option.getD_some, Option.getD_none]
    rw [hcond]
    simp only [Bool.false_eq_true, if_false]
    cases hw : env.storeWrite ("sub:" ++ u) ⟨o, env.now + 30 * 86400 * 1000⟩ (30 * 86400) with
    | error e => rfl
    | ok x => rfl

/-- C10 witness: the chat path at a concrete 10-digit code yields the
30-day record, and the /register endpoint at days = 10 and at an absent
days field yields the 10-day and 30-day records respectively. -/
theorem fixed_window_registration_witness :
    (EntitlementRecord.expireAt
        ⟨jsTrim ((some "1234567890").getD ""), baseEnv.now + 30 * 86400 * 1000⟩ =
          baseEnv.now + 30 * 86400000
      ∧ (30 * 86400 : Nat) = 30 * 86400)
    ∧ (handleRegister baseEnv (some ⟨some "U2", some "555555555", some 10⟩)).2 =
        [Action.storeSet ("sub:" ++ "U2") ⟨"555555555", baseEnv.now + 10 * 86400 * 1000⟩
          (10 * 86400)]
    ∧ (handleRegister baseEnv (some ⟨some "U2", some "555555555", none⟩)).2 =
        [Action.storeSet ("sub:" ++ "U2") ⟨"555555555", baseEnv.now + 30 * 86400 * 1000⟩
          (30 * 86400)] :=
  ⟨(fixed_window_registration baseEnv).1 evOrder (some "1234567890") rfl rfl (by decide)
      (Action.storeSet ("sub:" ++ evOrder.userId)
        ⟨jsTrim ((some "1234567890").getD ""), baseEnv.now + 30 * 86400 * 1000⟩ (30 * 86400))
      (by decide) _ _ _ rfl,
   (fixed_window_registration baseEnv).2.1 "U2" "555555555" 10 (by decide) (by decide),
   (fixed_window_registration baseEnv).2.2 "U2" "555555555" (by decide) (by decide)⟩

/-- C4 counterexample: a gated, entitled general-chat text event whose
generation call raises receives no reply at all — the exception
propagates out of the event handler instead of being converted into the
fixed fallback apology. -/
theorem generation_failure_fallback_cex :
    classifyIntent evChat.message = Intent.generalChat
    ∧ isActive genFailEnv evChat.userId = Except.ok true
    ∧ genFailEnv.gen (chatRequest "こんにちは") = Except.error ()
    ∧ hasReply (handleEvent genFailEnv evChat).1 = false
    ∧ (handleEvent genFailEnv evChat).2 = some PipelineError.genFail := by
  refine ⟨by decide, rfl, rfl, by decide, by decide⟩

/-- C4 (amended): for every gated, entitled event, an empty completion
is replaced by the fixed intent-specific fallback apology on every
path, and on the image path a raised media fetch or generation call is
also caught and answered with the fixed apology; only the text paths
let a raised generation call escape (see the counterexample). -/
theorem generation_failure_fallback (env : Env) (ev : Event)
    (h1 : ev.etype = "message")
    (hact : isActive env ev.userId = Except.ok true) :
    (∀ t c, ev.message = Message.text t →
       isOrderCode (jsTrim (t.getD "")) = false →
       env.gen (if isMeal (jsTrim (t.getD "")) then mealRequest (jsTrim (t.getD ""))
                else chatRequest (jsTrim (t.getD ""))) = Except.ok c →
       emptyCompletion c = true →
       Action.reply ev.replyToken
           (if isMeal (jsTrim (t.getD "")) then mealFallback else chatFallback)
         ∈ (handleEvent env ev).1)
    ∧ (∀ mid, ev.message = Message.image mid →
       env.fetchImage mid = Except.error () →
       Action.reply ev.replyToken visionErrText ∈ (handleEvent env ev).1
         ∧ (handleEvent env ev).2 = none)
    ∧ (∀ mid buf, ev.message = Message.image mid →
       env.fetchImage mid = Except.ok buf →
       env.gen (visionRequest ("data:image/jpeg;base64," ++ buf)) = Except.error () →
       Action.reply ev.replyToken visionErrText ∈ (handleEvent env ev).1
         ∧ (handleEvent env ev).2 = none)
    ∧ (∀ mid buf c, ev.message = Message.image mid →
       env.fetchImage mid = Except.ok buf →
       env.gen (visionRequest ("data:image/jpeg;base64," ++ buf)) = Except.ok c →
       emptyCompletion c = true →
       Action.reply ev.replyToken visionFallback ∈ (handleEvent env ev).1) := by
  refine ⟨?_, ?_, ?_, ?_⟩
  · intro t c h2 hob hg hempty
    by_cases hm : isMeal (jsTrim (t.getD "")) = true
    · simp only [hm, if_true] at hg ⊢
      have hmain : handleEvent env ev =
          ([Action.storeGet ("sub:" ++ ev.userId),
            Action.genCall (mealRequest (jsTrim (t.getD ""))),
            Action.reply ev.replyToken (extractReply c mealFallback)], none) := by
        unfold handleEvent
        rw [h1, h2]
        simp [hob, hm, hact, hg]
      rw [hmain, extractReply_empty hempty]
      simp
    · rw [Bool.not_eq_true] at hm
      simp only [hm, Bool.false_eq_true, if_false] at hg ⊢
      have hmain : handleEvent env ev =
          ([Action.storeGet ("sub:" ++ ev.userId),
            Action.genCall (chatRequest (jsTrim (t.getD ""))),
            Action.reply ev.replyToken (extractReply c chatFallback)], none) := by
        unfold handleEvent
        rw [h1, h2]
        simp [hob, hm, hact, hg]
      rw [hmain, extractReply_empty hempty]
      simp
  · intro mid h2 hf
    have hmain : handleEvent env ev =
        ([Action.storeGet ("sub:" ++ ev.userId), Action.fetchImage mid,
          Action.reply ev.replyToken visionErrText], none) := by
      unfold handleEvent
      rw [h1, h2]
      simp [hact, hf]
    rw [hmain]
    exact ⟨by simp, rfl⟩
  · intro mid buf h2 hf hg
    have hmain : handleEvent env ev =
        ([Action.storeGet ("sub:" ++ ev.userId), Action.fetchImage mid,
          Action.genCall (visionRequest ("data:image/jpeg;base64," ++ buf)),
          Action.reply ev.replyToken visionErrText], none) := by
      unfold handleEvent
      rw [h1, h2]
      simp [hact, hf, hg]
    rw [hmain]
    exact ⟨by simp, rfl⟩
  · intro mid buf c h2 hf hg hempty
    have hmain : handleEvent env ev =
        ([Action.storeGet ("sub:" ++ ev.userId), Action.fetchImage mid,
          Action.genCall (visionRequest ("data:image/jpeg;base64," ++ buf)),
          Action.reply ev.replyToken (extractReply c visionFallback)], none) := by
      unfold handleEvent
      rw [h1, h2]
      simp [hact, hf, hg]
    rw [hmain, extractReply_empty hempty]
    simp

/-- C4 witness: an entitled chat event whose generation call returns an
absent completion is answered with the fixed general-chat fallback. -/
theorem generation_failure_fallback_witness :
    Action.reply "tokC4" chatFallback ∈ (handleEvent genEmptyEnv evChat).1 :=
  (generation_failure_fallback genEmptyEnv evChat rfl rfl).1 (some "こんにちは") none rfl
    (by decide) rfl rfl

/-- C7 counterexample: when the store read rejects, isActive rejects as
well — it does not return the "not entitled" value false. -/
theorem store_read_failure_cex :
    isActive readFailEnv "U1" = Except.error ()
    ∧ isActive readFailEnv "U1" ≠ Except.ok false := by
  refine ⟨rfl, fun h => ?_⟩
  rw [show isActive readFailEnv "U1" = Except.error () from rfl] at h
  exact Except.noConfusion h

/-- C7 (amended): a failed entitlement-store read propagates out of
isActive as an exception; the affected event handler stops after the
read with no reply, and the failure is masked only at the webhook
boundary, which still acknowledges with 200. -/
theorem store_read_failure_amended (env : Env) (ev : Event) (e : Unit)
    (h1 : ev.etype = "message")
    (h2 : classifyIntent ev.message ≠ Intent.orderCode)
    (h3 : env.storeRead ("sub:" ++ ev.userId) = Except.error e) :
    isActive env ev.userId = Except.error e
    ∧ handleEvent env ev =
        ([Action.storeGet ("sub:" ++ ev.userId)], some PipelineError.storeReadFail)
    ∧ hasReply (handleEvent env ev).1 = false
    ∧ (handleWebhook env (some [ev])).1 = 200 := by
  have hia : isActive env ev.userId = Except.error e := by
    unfold isActive
    rw [h3]
  have hmain : handleEvent env ev =
      ([Action.storeGet ("sub:" ++ ev.userId)], some PipelineError.storeReadFail) := by
    unfold handleEvent
    rw [h1]
    cases hm : ev.message with
    | text t =>
      rw [hm] at h2
      cases hob : isOrderCode (jsTrim (t.getD "")) with
      | true => exact absurd ((classify_text_orderCode t).mpr hob) h2
      | false => simp [hob, hia]
    | image mid => simp [hia]
    | other => simp [hia]
  refine ⟨hia, hmain, by rw [hmain]; rfl, ?_⟩
  unfold handleWebhook
  simp only [ite_self]

/-- C7 witness: a meal-report text under a rejecting store read ends
with no reply for that event and a 200 acknowledgment. -/
theorem store_read_failure_amended_witness :
    isActive readFailEnv evMeal.userId = Except.error ()
    ∧ handleEvent readFailEnv evMeal =
        ([Action.storeGet ("sub:" ++ evMeal.userId)], some PipelineError.storeReadFail)
    ∧ hasReply (handleEvent readFailEnv evMeal).1 = false
    ∧ (handleWebhook readFailEnv (some [evMeal])).1 = 200 :=
  store_read_failure_amended readFailEnv evMeal () rfl (by decide) rfl

end DietBot
